import Mathlib

/-!
Verification development for the `infographics` Python module
(src/infographics/__init__.py), a thin convenience layer over a GIS
platform's geoenrichment and content services.

Shallow embedding conventions:
* Network traffic is modelled by an environment (`GeoEnv`) mapping each
  request to the JSON payload the service would return, already parsed
  into records; the functions additionally return the list of network
  requests they issue (`NetRequest`).
* `pandas.DataFrame` values are modelled as a column-name list plus a
  row list (`DataFrame`), with `Cell` covering the cell types that occur.
* Python exceptions become `Except Err`; `Err` records which exception
  class is raised and the data it carries (the formatted message text
  itself is not modelled).
* `functools.cache` on `get_countries` is modelled by explicit cache
  state keyed by the session's identity (`getCountriesMemo`).
* `pathlib` attributes (`parent`, `name`, `suffix`) are modelled on a
  `PurePath` record; passing a Python `str` instead of a `Path` is the
  `PathLike.pstr` constructor, whose attribute access raises
  `AttributeError` as in Python.
-/

namespace Infographics

/-- Cell values occurring in the modelled data frames. -/
inductive Cell
  | str : String → Cell
  | strs : List String → Cell
  | optStr : Option String → Cell
  deriving Repr, DecidableEq

/-- A pandas DataFrame, modelled as its ordered column names and rows. -/
structure DataFrame where
  columns : List String
  rows : List (List Cell)
  deriving Repr, DecidableEq

/-- Python exception classes raised by the module, with the data they carry. -/
inductive Err
  | configError
  | countryUnavailable (iso2 : String)
  | invalidHierarchies (lst : List (Option String))
  | assertionFailed
  | attributeError (ty attr : String)
  deriving Repr, DecidableEq

/-! ### String helpers mirroring Python primitives -/

/-- Whether the second list is an initial segment of the first
(Python `str.startswith`, on characters). -/
def beginsWith : List Char → List Char → Bool
  | _, [] => true
  | [], _ :: _ => false
  | h :: t, n :: m => h == n && beginsWith t m

/-- Whether `needle` occurs contiguously inside the second list. -/
def hasSubList (needle : List Char) : List Char → Bool
  | [] => needle.isEmpty
  | h :: t => beginsWith (h :: t) needle || hasSubList needle t

/-- Python's `needle in hay` on strings: substring containment. -/
def strHasSub (hay needle : String) : Bool :=
  hasSubList needle.toList hay.toList

/-- Index of the last '.' in the character list, counting from `i`
(Python `str.rfind('.')` restricted to a found result). -/
def lastDotIdx : List Char → Nat → Option Nat
  | [], _ => none
  | c :: cs, i =>
    match lastDotIdx cs (i + 1) with
    | some j => some j
    | none => if c == '.' then some i else none

/-- `pathlib.PurePath.suffix` computed from the final component's name:
the part from the last dot, empty when the dot is absent, leading or
trailing. -/
def suffixOfName (name : String) : String :=
  let cs := name.toList
  match lastDotIdx cs 0 with
  | some i => if 0 < i && i < cs.length - 1 then String.mk (cs.drop i) else ""
  | none => ""

/-- Python `str.lower()`, character by character (the strings this module
lowercases are ASCII, where `Char.toLower` agrees with Python). -/
def pyToLower (s : String) : String :=
  String.mk (s.toList.map Char.toLower)

/-- Python `str.lstrip(".")`: drop leading dots. -/
def lstripDots (s : String) : String :=
  String.mk (s.toList.dropWhile (fun c => c == '.'))

/-- Python `any(...)` over a list of strings: true iff some element is
non-empty (the empty string is falsy). -/
def pyAnyStr (l : List String) : Bool :=
  l.any (fun s => !s.isEmpty)

/-! ### Country / hierarchy lookup (`get_countries`) -/

/-- One entry of the `/Geoenrichment/Countries` response, after the module
has extracted each hierarchy dict's "ID" field. -/
structure CountryEntry where
  id : String
  hierarchies : List String
  deriving Repr, DecidableEq

/-- `DataFrame.explode` on one country's hierarchy list: one row per
hierarchy; an empty list yields a single row whose hierarchy is NaN
(modelled `none`). -/
def explodeEntry (c : CountryEntry) : List (String × Option String) :=
  match c.hierarchies with
  | [] => [(c.id, none)]
  | _ => c.hierarchies.map (fun h => (c.id, some h))

/-- The body of `get_countries`: normalize the response, keep `id` and the
hierarchy IDs, and explode to one row per (country, hierarchy). -/
def buildCountriesTable (resp : List CountryEntry) : List (String × Option String) :=
  resp.flatMap explodeEntry

/-- `list(countries_df.id)`. -/
def countryIds (tbl : List (String × Option String)) : List String :=
  tbl.map Prod.fst

/-- `list(countries_df[countries_df["id"] == iso]["hierarchies"])`. -/
def hierarchiesFor (tbl : List (String × Option String)) (iso : String) :
    List (Option String) :=
  (tbl.filter (fun r => r.1 == iso)).map Prod.snd

/-- A GIS session object, as far as the module observes it: its identity
(the `functools.cache` key) and the countries payload its connection
returns. -/
structure Session where
  sid : Nat
  countriesResp : List CountryEntry
  deriving Repr, DecidableEq

/-- Result of one call through the memoized `get_countries`: the table
returned, the cache state afterwards, and how many network fetches the
call performed. -/
structure CountriesCall where
  table : List (String × Option String)
  cacheAfter : List (Nat × List (String × Option String))
  fetches : Nat
  deriving Repr, DecidableEq

/-- `get_countries` with its `functools.cache` decorator: on a cache hit for
the session's identity, return the stored table with no fetch; otherwise
fetch, build the table and store it. -/
def getCountriesMemo (cacheSt : List (Nat × List (String × Option String)))
    (s : Session) : CountriesCall :=
  match cacheSt.lookup s.sid with
  | some t => ⟨t, cacheSt, 0⟩
  | none =>
    let t := buildCountriesTable s.countriesResp
    ⟨t, (s.sid, t) :: cacheSt, 1⟩

/-! ### Standard infographics (`get_standard_infographics`) -/

/-- One entry of an infographics response's `reports` array, after
`json_normalize` flattening and stripping of the `metadata.` prefix; only
the columns the module keeps are modelled. -/
structure Report where
  reportID : String
  title : String
  itemID : String
  formats : List String
  dataVintage : String
  countries : List String
  hierarchy : String
  deriving Repr, DecidableEq

/-- The service environment: whether `ensure_gis` succeeds (a session with a
configured geoenrichment endpoint), the countries payload, and for each
`/Geoenrichment/Infographics/Standard/{country}/{hierarchy}` request the
`reports` field of the JSON response (`none` when the key is absent). -/
structure GeoEnv where
  gisOk : Bool
  countriesResp : List CountryEntry
  reportsFor : String → Option String → Option (List Report)

/-- Network requests observable in `get_standard_infographics`. -/
inductive NetRequest
  | countries
  | infographics (country : String) (hierarchy : Option String)
  deriving Repr, DecidableEq

/-- Fixed column set of the standard-infographics output frame, in source
order (the `dataVintageDescription` column is commented out in the code). -/
def stdColumns : List String :=
  ["reportID", "title", "itemID", "formats", "dataVintage", "countries",
   "hierarchy", "category"]

/-- Row produced from one report after column selection and the
`category = "standard"` tag. -/
def mkStdRow (r : Report) : List Cell :=
  [.str r.reportID, .str r.title, .str r.itemID, .strs r.formats,
   .str r.dataVintage, .strs r.countries, .str r.hierarchy, .str "standard"]

/-- The per-hierarchy frame `std_ig_df` with its `category` column. -/
def mkStdDf (reports : List Report) : DataFrame :=
  ⟨stdColumns, reports.map mkStdRow⟩

/-- The initial empty output frame with the fixed column set. -/
def emptyStdDf : DataFrame :=
  ⟨stdColumns, []⟩

/-- `pd.concat` of frames with identical column sets (the only shape that
occurs in the module): rows are appended. -/
def dfConcat (a b : DataFrame) : DataFrame :=
  ⟨a.columns, a.rows ++ b.rows⟩

/-- The countries table `get_standard_infographics` works with: the cached
value when `get_countries`'s cache holds one for this session, otherwise
the table built from a fresh fetch. -/
def countriesTableOf (env : GeoEnv) (cache : Option (List (String × Option String))) :
    List (String × Option String) :=
  match cache with
  | some t => t
  | none => buildCountriesTable env.countriesResp

/-- Resolution of `hrchy_lst`: all the country's hierarchies when the
argument is omitted, the singleton otherwise. -/
def resolvedHierarchies (tbl : List (String × Option String)) (country : String)
    (hierarchy : Option String) : List (Option String) :=
  match hierarchy with
  | none => hierarchiesFor tbl country
  | some h => [some h]

/-- The `invalid_lst` comprehension: requested hierarchies absent from the
hierarchy set of the fixed reference country `"US"` (not the target
country). -/
def invalidHierarchies (tbl : List (String × Option String)) (country : String)
    (hierarchy : Option String) : List (Option String) :=
  (resolvedHierarchies tbl country hierarchy).filter
    (fun h => !(hierarchiesFor tbl "US").contains h)

/-- The `for idx, hrchy in enumerate(hrchy_lst)` loop: request each
hierarchy's reports; when some exist, on the first index replace the
accumulator by the fresh frame, otherwise concatenate. -/
def stdLoop (env : GeoEnv) (country : String) (idx : Nat) :
    List (Option String) → DataFrame → DataFrame
  | [], out => out
  | hrchy :: rest, out =>
    let out' :=
      match env.reportsFor country hrchy with
      | some reports =>
        if 0 < reports.length then
          if idx == 0 then mkStdDf reports else dfConcat out (mkStdDf reports)
        else out
      | none => out
    stdLoop env country (idx + 1) rest out'

/-- `get_standard_infographics`: validate the GIS, obtain the countries
table (through the cache), validate the country code, resolve the
hierarchy list, validate it against the reference country "US", then fetch
and accumulate each hierarchy's reports. Returns the result (or the raised
exception) together with the network requests issued. -/
def getStandardInfographics (env : GeoEnv)
    (cache : Option (List (String × Option String)))
    (countryIso2 : String) (hierarchy : Option String) :
    Except Err DataFrame × List NetRequest :=
  if !env.gisOk then (.error .configError, []) else
  let countriesDf := countriesTableOf env cache
  let log0 : List NetRequest :=
    match cache with
    | some _ => []
    | none => [.countries]
  if !(countryIds countriesDf).contains countryIso2 then
    (.error (.countryUnavailable countryIso2), log0)
  else
    let hrchyLst := resolvedHierarchies countriesDf countryIso2 hierarchy
    let invalidLst := invalidHierarchies countriesDf countryIso2 hierarchy
    if !invalidLst.isEmpty then
      (.error (.invalidHierarchies invalidLst), log0)
    else
      let reqs := hrchyLst.map (fun h => NetRequest.infographics countryIso2 h)
      (.ok (stdLoop env countryIso2 0 hrchyLst emptyStdDf), log0 ++ reqs)

/-! ### Organization infographics (`get_organization_infographics`) -/

/-- A content item returned by the `type:Report Template` catalog search,
as far as the module reads it (`itm.properties.get(...)` may be absent,
hence the options). -/
structure OrgItem where
  title : String
  itemId : String
  description : String
  countries : Option String
  formats : Option String
  owner : String
  typeKeywords : List String
  deriving Repr, DecidableEq

/-- The item filter of the source, verbatim:
`any([kw for kw in itm.typeKeywords if "infographic" in kw.lower()])` —
a list comprehension keeping the keyword strings that contain
"infographic" case-insensitively, then Python's truthiness `any`. -/
def keywordFilter (itm : OrgItem) : Bool :=
  pyAnyStr (itm.typeKeywords.filter (fun kw => strHasSub (pyToLower kw) "infographic"))

/-- The predicate as the spec states it: some type keyword contains the
substring "infographic" case-insensitively. -/
def specKeywordMatch (itm : OrgItem) : Bool :=
  itm.typeKeywords.any (fun kw => strHasSub (pyToLower kw) "infographic")

/-- The dict built for each surviving item, in key order. -/
def mkOrgRow (itm : OrgItem) : List Cell :=
  [.str itm.title, .str itm.itemId, .str itm.description,
   .optStr itm.countries, .optStr itm.formats, .str itm.owner]

/-- Column names of the per-item dicts, in key order. -/
def orgColumns : List String :=
  ["title", "itemID", "itemDescription", "countries", "formats", "owner"]

/-- `pd.DataFrame(list_of_dicts)` for the uniform-key dicts of this module:
an empty list yields a frame with no columns at all. -/
def orgDfOfRows (rows : List (List Cell)) : DataFrame :=
  if rows.isEmpty then ⟨[], []⟩ else ⟨orgColumns, rows⟩

/-- `df[col] = value` on the modelled frame: overwrite the column when
present, otherwise append it, broadcasting the scalar to every row. -/
def dfSetCol (df : DataFrame) (c : String) (v : Cell) : DataFrame :=
  match df.columns.findIdx? (fun x => x == c) with
  | some i => ⟨df.columns, df.rows.map (fun r => r.set i v)⟩
  | none => ⟨df.columns ++ [c], df.rows.map (fun r => r ++ [v])⟩

/-- `get_organization_infographics`: search results filtered by the type
keywords, reshaped into rows, framed, and tagged `category = "custom"`. -/
def getOrganizationInfographics (gisOk : Bool) (itmLst : List OrgItem) :
    Except Err DataFrame :=
  if !gisOk then .error .configError else
  let igItmLst := itmLst.filter keywordFilter
  let igRows := igItmLst.map mkOrgRow
  .ok (dfSetCol (orgDfOfRows igRows) "category" (.str "custom"))

/-- Rows of an organization-infographics result, for stating theorems. -/
def orgRowsOf (r : Except Err DataFrame) : List (List Cell) :=
  match r with
  | .ok d => d.rows
  | .error _ => []

/-! ### Infographic generation (`create_infographic`) -/

/-- An element of `study_areas`: either a Geometry (carrying its `JSON`
serialization) or any non-Geometry value. -/
inductive StudyArea
  | geom (json : String)
  | notGeom
  deriving Repr, DecidableEq

/-- The `study_areas` argument: a single value or a Python list. -/
inductive StudyAreasArg
  | single (a : StudyArea)
  | multi (l : List StudyArea)
  deriving Repr, DecidableEq

/-- `[study_areas] if not isinstance(study_areas, list) else study_areas`. -/
def normalizeAreas : StudyAreasArg → List StudyArea
  | .single a => [a]
  | .multi l => l

/-- `isinstance(geom, Geometry)`. -/
def isGeom : StudyArea → Bool
  | .geom _ => true
  | .notGeom => false

/-- `geom.JSON` (only reached once every element is a Geometry). -/
def areaJson : StudyArea → String
  | .geom j => j
  | .notGeom => ""

/-- A pure path, as far as the module reads it: `parent` (as a string) and
final component `name`; `suffix` is derived from `name`. -/
structure PurePath where
  parentStr : String
  name : String
  deriving Repr, DecidableEq

/-- The `out_path` argument, typed `Union[str, Path]` in the source. -/
inductive PathLike
  | pstr (s : String)
  | ppath (p : PurePath)
  deriving Repr, DecidableEq

/-- The arguments `create_infographic` hands to the upstream
`arcgis.geoenrichment.create_report` call; producing this value is the
point at which the report-rendering service is contacted. -/
structure ReportRequest where
  studyAreas : List String
  report : String
  exportFormat : String
  outFolder : String
  outName : String
  deriving Repr, DecidableEq

/-- The supported export formats. -/
def allowedFormats : List String :=
  ["xlsx", "pdf", "html"]

/-- `create_infographic` up to the upstream call: validate the GIS, the
geometries and the export format, split the output path (an
`AttributeError` when `out_path` is a `str`: `str` has no `parent`),
adjust the output name's extension, and return the rendering request. -/
def createInfographic (gisOk : Bool) (studyAreas : StudyAreasArg)
    (infographicId : String) (outPath : PathLike) (exportFormat : String) :
    Except Err ReportRequest :=
  if !gisOk then .error .configError else
  let inGeom := normalizeAreas studyAreas
  if !(inGeom.all isGeom) then .error .assertionFailed else
  let inGeomJson := inGeom.map
    (fun g => "\x7b\"geometry\": " ++ areaJson g ++ "\x7d")
  let fmt := pyToLower exportFormat
  if !(allowedFormats.contains fmt) then .error .assertionFailed else
  match outPath with
  | .pstr _ => .error (.attributeError "str" "parent")
  | .ppath p =>
    let outFolder := p.parentStr
    let outName := p.name
    let fileExtension := lstripDots (suffixOfName p.name)
    let outName :=
      if !(fileExtension == "htm" && fmt == "html") then
        if fmt != fileExtension then outName ++ "." ++ fmt else outName
      else outName
    .ok ⟨inGeomJson, infographicId, fmt, outFolder, outName⟩

/-- The resolved output file name of a successful call. -/
def resultOutName (r : Except Err ReportRequest) : Option String :=
  match r with
  | .ok req => some req.outName
  | .error _ => none

/-! ### Helper lemmas -/

/-- The reports-fetching loop leaves the accumulator untouched when every
hierarchy yields an absent or empty `reports` array. -/
lemma stdLoop_no_reports (env : GeoEnv) (country : String) (l : List (Option String)) :
    ∀ (idx : Nat) (out : DataFrame),
      (∀ h ∈ l, env.reportsFor country h = none ∨ env.reportsFor country h = some []) →
      stdLoop env country idx l out = out := by
  induction l with
  | nil => intro idx out _; rfl
  | cons hrchy rest ih =>
    intro idx out hrep
    have h0 := hrep hrchy (List.mem_cons_self _ _)
    have hrest := fun h hm => hrep h (List.mem_cons_of_mem _ hm)
    rcases h0 with h | h
    · simpa [stdLoop, h] using ih (idx + 1) out hrest
    · simpa [stdLoop, h] using ih (idx + 1) out hrest

/-- A keyword that contains "infographic" (after lowering) is non-empty. -/
lemma isEmpty_false_of_sub (kw : String)
    (h : strHasSub (pyToLower kw) "infographic" = true) : kw.isEmpty = false := by
  cases hkemp : kw.isEmpty with
  | false => rfl
  | true =>
    exfalso
    rw [(String.isEmpty_iff kw).mp hkemp] at h
    exact absurd h (by decide)

/-- The source's comprehension-plus-`any` filter agrees with the direct
"some keyword matches" predicate. -/
lemma keywordFilter_eq_spec (itm : OrgItem) :
    keywordFilter itm = specKeywordMatch itm := by
  unfold keywordFilter specKeywordMatch
  induction itm.typeKeywords with
  | nil => rfl
  | cons kw t ih =>
    cases hk : strHasSub (pyToLower kw) "infographic" with
    | false => simpa [pyAnyStr, List.filter_cons, hk] using ih
    | true => simp [pyAnyStr, List.filter_cons, hk, isEmpty_false_of_sub kw hk]

/-- Rows of `get_organization_infographics` are the filtered items' rows
with the `category` cell appended. -/
lemma orgRows_eq (itmLst : List OrgItem) :
    orgRowsOf (getOrganizationInfographics true itmLst)
      = (itmLst.filter keywordFilter).map (fun i => mkOrgRow i ++ [Cell.str "custom"]) := by
  cases hfe : itmLst.filter keywordFilter with
  | nil => simp [getOrganizationInfographics, orgRowsOf, hfe, orgDfOfRows, dfSetCol]
  | cons a t =>
    have hidx : orgColumns.findIdx? (fun x => x == "category") = none := by decide
    simp [getOrganizationInfographics, orgRowsOf, hfe, orgDfOfRows, dfSetCol, hidx,
      List.map_map, Function.comp]

/-! ### Claim theorems -/

/-- C6: calling `get_countries` twice with the same session object performs
at most one network fetch; the second call performs none and returns the
memoized result of the first. -/
theorem getCountries_memoized (st : List (Nat × List (String × Option String)))
    (s : Session) :
    (getCountriesMemo (getCountriesMemo st s).cacheAfter s).fetches = 0 ∧
    (getCountriesMemo (getCountriesMemo st s).cacheAfter s).table
      = (getCountriesMemo st s).table ∧
    (getCountriesMemo st s).fetches
      + (getCountriesMemo (getCountriesMemo st s).cacheAfter s).fetches ≤ 1 := by
  cases h : st.lookup s.sid with
  | some t => simp [getCountriesMemo, h]
  | none => simp [getCountriesMemo, h, List.lookup]

/-- Closed witness for `getCountries_memoized`: a concrete second call
performs no fetch. -/
theorem getCountries_memoized_witness :
    (getCountriesMemo
        (getCountriesMemo [] ⟨0, [⟨"US", ["Census2020"]⟩]⟩).cacheAfter
        ⟨0, [⟨"US", ["Census2020"]⟩]⟩).fetches = 0 :=
  (getCountries_memoized [] ⟨0, [⟨"US", ["Census2020"]⟩]⟩).1

/-- C3: with the country table cached, a country code absent from it makes
`get_standard_infographics` raise the `ValueError` for an unavailable
country, and the call issues no network request at all (empty request
log). -/
theorem std_unknown_country_fails (env : GeoEnv) (country : String)
    (hierarchy : Option String) (hgis : env.gisOk = true)
    (hc : (countryIds (buildCountriesTable env.countriesResp)).contains country = false) :
    getStandardInfographics env (some (buildCountriesTable env.countriesResp))
        country hierarchy
      = (.error (.countryUnavailable country), []) := by
  have hc' : ¬ country ∈ countryIds (buildCountriesTable env.countriesResp) := by
    simpa using hc
  simp [getStandardInfographics, countriesTableOf, hgis, hc']

/-- Closed witness for `std_unknown_country_fails`. -/
theorem std_unknown_country_fails_witness :
    getStandardInfographics ⟨true, [⟨"US", ["Census2020"]⟩], fun _ _ => none⟩
        (some (buildCountriesTable [⟨"US", ["Census2020"]⟩])) "ZZ" none
      = (.error (.countryUnavailable "ZZ"), []) :=
  std_unknown_country_fails ⟨true, [⟨"US", ["Census2020"]⟩], fun _ _ => none⟩
    "ZZ" none rfl (by decide)

/-- C1: requested hierarchies are validated against the hierarchy set of
the fixed reference country "US"; when some are absent from that set the
call raises the `ValueError` carrying exactly the invalid codes, and no
per-hierarchy infographics request appears in the request log. -/
theorem std_invalid_hierarchy_fails (env : GeoEnv)
    (cache : Option (List (String × Option String)))
    (country : String) (hierarchy : Option String)
    (hgis : env.gisOk = true)
    (hc : (countryIds (countriesTableOf env cache)).contains country = true)
    (hinv : (resolvedHierarchies (countriesTableOf env cache) country hierarchy).filter
        (fun h => !(hierarchiesFor (countriesTableOf env cache) "US").contains h) ≠ []) :
    (getStandardInfographics env cache country hierarchy).1
      = .error (.invalidHierarchies
          ((resolvedHierarchies (countriesTableOf env cache) country hierarchy).filter
            (fun h => !(hierarchiesFor (countriesTableOf env cache) "US").contains h))) ∧
    ∀ c h, NetRequest.infographics c h ∉ (getStandardInfographics env cache country hierarchy).2 := by
  have hc' : country ∈ countryIds (countriesTableOf env cache) := by simpa using hc
  have hinvE : ∃ x ∈ resolvedHierarchies (countriesTableOf env cache) country hierarchy,
      x ∉ hierarchiesFor (countriesTableOf env cache) "US" := by simpa using hinv
  constructor
  · simp [getStandardInfographics, hgis, hc', hinvE, invalidHierarchies]
  · intro c h
    cases cache with
    | some t =>
      have hcT : country ∈ countryIds t := hc'
      have hinvN : invalidHierarchies t country hierarchy ≠ [] := hinv
      simp [getStandardInfographics, countriesTableOf, hgis, hcT, hinvN]
    | none =>
      have hcT : country ∈ countryIds (buildCountriesTable env.countriesResp) := hc'
      have hinvN : invalidHierarchies (buildCountriesTable env.countriesResp)
          country hierarchy ≠ [] := hinv
      simp [getStandardInfographics, countriesTableOf, hgis, hcT, hinvN]

/-- Closed witness for `std_invalid_hierarchy_fails`: the hierarchy "FrH"
is valid for the target country "FR" but absent from the "US" set, so the
call still fails and issues no infographics request. -/
theorem std_invalid_hierarchy_fails_witness :
    (getStandardInfographics ⟨true, [⟨"US", ["CensusA"]⟩, ⟨"FR", ["FrH"]⟩], fun _ _ => none⟩
        none "FR" (some "FrH")).1
      = .error (.invalidHierarchies
          ((resolvedHierarchies (countriesTableOf
              ⟨true, [⟨"US", ["CensusA"]⟩, ⟨"FR", ["FrH"]⟩], fun _ _ => none⟩ none)
              "FR" (some "FrH")).filter
            (fun h => !(hierarchiesFor (countriesTableOf
              ⟨true, [⟨"US", ["CensusA"]⟩, ⟨"FR", ["FrH"]⟩], fun _ _ => none⟩ none)
              "US").contains h))) ∧
    NetRequest.infographics "FR" (some "FrH")
      ∉ (getStandardInfographics ⟨true, [⟨"US", ["CensusA"]⟩, ⟨"FR", ["FrH"]⟩], fun _ _ => none⟩
          none "FR" (some "FrH")).2 :=
  ⟨(std_invalid_hierarchy_fails ⟨true, [⟨"US", ["CensusA"]⟩, ⟨"FR", ["FrH"]⟩], fun _ _ => none⟩
      none "FR" (some "FrH") rfl (by decide) (by decide)).1,
   (std_invalid_hierarchy_fails ⟨true, [⟨"US", ["CensusA"]⟩, ⟨"FR", ["FrH"]⟩], fun _ _ => none⟩
      none "FR" (some "FrH") rfl (by decide) (by decide)).2 "FR" (some "FrH")⟩

/-- C4: when every hierarchy yields an absent or empty `reports` array,
`get_standard_infographics` returns (not `None` but) an empty frame that
still carries the full fixed column set. -/
theorem std_no_reports_empty_frame (env : GeoEnv)
    (cache : Option (List (String × Option String)))
    (country : String) (hierarchy : Option String)
    (hgis : env.gisOk = true)
    (hc : (countryIds (countriesTableOf env cache)).contains country = true)
    (hinv : invalidHierarchies (countriesTableOf env cache) country hierarchy = [])
    (hrep : ∀ h ∈ resolvedHierarchies (countriesTableOf env cache) country hierarchy,
        env.reportsFor country h = none ∨ env.reportsFor country h = some []) :
    (getStandardInfographics env cache country hierarchy).1
      = .ok ⟨["reportID", "title", "itemID", "formats", "dataVintage", "countries",
              "hierarchy", "category"], []⟩ := by
  have hc' : country ∈ countryIds (countriesTableOf env cache) := by simpa using hc
  have hloop := stdLoop_no_reports env country
    (resolvedHierarchies (countriesTableOf env cache) country hierarchy) 0 emptyStdDf hrep
  have hres : (getStandardInfographics env cache country hierarchy).1 = .ok emptyStdDf := by
    simp [getStandardInfographics, hgis, hc', hinv, hloop]
  rw [hres]
  rfl

/-- Closed witness for `std_no_reports_empty_frame`. -/
theorem std_no_reports_empty_frame_witness :
    (getStandardInfographics ⟨true, [⟨"US", ["Census2020"]⟩], fun _ _ => some []⟩
        none "US" none).1
      = .ok ⟨["reportID", "title", "itemID", "formats", "dataVintage", "countries",
              "hierarchy", "category"], []⟩ :=
  std_no_reports_empty_frame ⟨true, [⟨"US", ["Census2020"]⟩], fun _ _ => some []⟩
    none "US" none rfl (by decide) (by decide) (fun _ _ => Or.inr rfl)

/-- C5: `get_organization_infographics` keeps exactly the searched items
some of whose type keywords contain "infographic" case-insensitively; in
particular a keyword "Infographic-Template" is kept and a sole keyword
"template" is not. -/
theorem org_keyword_filter (itmLst : List OrgItem) (itm : OrgItem) :
    orgRowsOf (getOrganizationInfographics true itmLst)
      = (itmLst.filter specKeywordMatch).map (fun i => mkOrgRow i ++ [Cell.str "custom"]) ∧
    (specKeywordMatch itm = true
      ↔ ∃ kw ∈ itm.typeKeywords, strHasSub (pyToLower kw) "infographic" = true) ∧
    orgRowsOf (getOrganizationInfographics true
        [⟨"Tapestry", "i1", "d", none, none, "own", ["Infographic-Template"]⟩,
         ⟨"Plain", "i2", "d", none, none, "own", ["template"]⟩])
      = [mkOrgRow ⟨"Tapestry", "i1", "d", none, none, "own", ["Infographic-Template"]⟩
          ++ [Cell.str "custom"]] := by
  refine ⟨?_, ?_, ?_⟩
  · rw [orgRows_eq]
    have hcg : itmLst.filter keywordFilter = itmLst.filter specKeywordMatch :=
      List.filter_congr (fun i _ => keywordFilter_eq_spec i)
    rw [hcg]
  · simp [specKeywordMatch, List.any_eq_true]
  · rfl

/-- Closed witness for `org_keyword_filter`: the concrete
inclusion/exclusion instance. -/
theorem org_keyword_filter_witness :
    orgRowsOf (getOrganizationInfographics true
        [⟨"Tapestry", "i1", "d", none, none, "own", ["Infographic-Template"]⟩,
         ⟨"Plain", "i2", "d", none, none, "own", ["template"]⟩])
      = [mkOrgRow ⟨"Tapestry", "i1", "d", none, none, "own", ["Infographic-Template"]⟩
          ++ [Cell.str "custom"]] :=
  (org_keyword_filter []
    ⟨"Tapestry", "i1", "d", none, none, "own", ["Infographic-Template"]⟩).2.2

/-- C10: when no searched item's keywords match, the returned frame is
empty and carries only the `category` column, not the documented
title/itemID/itemDescription/countries/formats/owner columns. -/
theorem org_no_match_category_only (itmLst : List OrgItem)
    (h : ∀ itm ∈ itmLst, keywordFilter itm = false) :
    getOrganizationInfographics true itmLst = .ok ⟨["category"], []⟩ := by
  have hfe : itmLst.filter keywordFilter = [] :=
    List.filter_eq_nil_iff.mpr (by simpa using h)
  simp [getOrganizationInfographics, hfe, orgDfOfRows, dfSetCol]

/-- Closed witness for `org_no_match_category_only`. -/
theorem org_no_match_category_only_witness :
    getOrganizationInfographics true
        [⟨"Plain", "i2", "d", none, none, "own", ["template"]⟩]
      = .ok ⟨["category"], []⟩ :=
  org_no_match_category_only
    [⟨"Plain", "i2", "d", none, none, "own", ["template"]⟩] (by decide)

/-- C2 counterexample: for output path `report.PDF` with format "pdf" the
code compares the lowercased format against the unlowered extension, so it
appends a duplicate extension, resolving the name to `report.PDF.pdf`
rather than keeping `report.PDF`. -/
theorem create_pdf_extension_cex :
    resultOutName (createInfographic true (.multi [.geom "g1"]) "rid"
        (.ppath ⟨".", "report.PDF"⟩) "pdf") = some "report.PDF.pdf" ∧
    resultOutName (createInfographic true (.multi [.geom "g1"]) "rid"
        (.ppath ⟨".", "report.PDF"⟩) "pdf") ≠ some "report.PDF" :=
  ⟨by decide, by decide⟩

/-- C2 (amended): for output path `report.PDF` with format "pdf" the
case-sensitive extension comparison appends a duplicate lowercase
extension, resolving to `report.PDF.pdf`; for output path `report` (no
extension) with format "xlsx" the resolved name is `report.xlsx`. -/
theorem create_extension_resolution :
    resultOutName (createInfographic true (.multi [.geom "g1"]) "rid"
        (.ppath ⟨".", "report.PDF"⟩) "pdf") = some "report.PDF.pdf" ∧
    resultOutName (createInfographic true (.multi [.geom "g1"]) "rid"
        (.ppath ⟨".", "report"⟩) "xlsx") = some "report.xlsx" :=
  ⟨by decide, by decide⟩

/-- C7: for output path `report.htm` with format "html" the special case
keeps the name unchanged: no extension is appended. -/
theorem create_htm_html_no_append :
    resultOutName (createInfographic true (.multi [.geom "g1"]) "rid"
        (.ppath ⟨".", "report.htm"⟩) "html") = some "report.htm" := by
  decide

/-- C8: an export format whose lowercase form is outside
{"xlsx","pdf","html"} makes `create_infographic` fail on the assertion
before any rendering request is produced; for formats in the set (any
letter case, with valid geometries) the call does not fail on an
assertion. -/
theorem create_format_validation (studyAreas : StudyAreasArg) (infographicId : String)
    (outPath : PathLike) (fmt : String) :
    (allowedFormats.contains (pyToLower fmt) = false →
      createInfographic true studyAreas infographicId outPath fmt
        = .error .assertionFailed) ∧
    (allowedFormats.contains (pyToLower fmt) = true →
      (normalizeAreas studyAreas).all isGeom = true →
      createInfographic true studyAreas infographicId outPath fmt
        ≠ .error .assertionFailed) := by
  constructor
  · intro hf
    cases hg : (normalizeAreas studyAreas).all isGeom with
    | false => simp [createInfographic, hg]
    | true =>
      have hf' : ¬ pyToLower fmt ∈ allowedFormats := by simpa using hf
      simp [createInfographic, hg, hf']
  · intro hf hg
    have hf' : pyToLower fmt ∈ allowedFormats := by simpa using hf
    cases outPath with
    | pstr s => simp [createInfographic, hg, hf']
    | ppath p => simp [createInfographic, hg, hf']

/-- Closed witness for `create_format_validation`: "docx" is rejected by
the assertion, "PDF" (uppercase) passes it. -/
theorem create_format_validation_witness :
    createInfographic true (.multi [.geom "g1"]) "rid" (.ppath ⟨".", "report"⟩) "docx"
      = .error .assertionFailed ∧
    createInfographic true (.multi [.geom "g1"]) "rid" (.ppath ⟨".", "report"⟩) "PDF"
      ≠ .error .assertionFailed :=
  ⟨(create_format_validation (.multi [.geom "g1"]) "rid" (.ppath ⟨".", "report"⟩)
      "docx").1 (by decide),
   (create_format_validation (.multi [.geom "g1"]) "rid" (.ppath ⟨".", "report"⟩)
      "PDF").2 (by decide) (by decide)⟩

/-- C9: a call passing `out_path` as a plain string never reaches the
rendering service (no call succeeds), and once the geometry and format
validations pass it fails exactly with the `AttributeError` from accessing
`parent` on a `str`. -/
theorem create_str_path_fails (studyAreas : StudyAreasArg) (infographicId : String)
    (s : String) (fmt : String) :
    (∀ req, createInfographic true studyAreas infographicId (.pstr s) fmt ≠ .ok req) ∧
    ((normalizeAreas studyAreas).all isGeom = true →
      allowedFormats.contains (pyToLower fmt) = true →
      createInfographic true studyAreas infographicId (.pstr s) fmt
        = .error (.attributeError "str" "parent")) := by
  constructor
  · intro req hcontra
    cases hg : (normalizeAreas studyAreas).all isGeom with
    | false => simp [createInfographic, hg] at hcontra
    | true =>
      by_cases hf : pyToLower fmt ∈ allowedFormats
      · simp [createInfographic, hg, hf] at hcontra
      · simp [createInfographic, hg, hf] at hcontra
  · intro hg hf
    have hf' : pyToLower fmt ∈ allowedFormats := by simpa using hf
    simp [createInfographic, hg, hf']

/-- Closed witness for `create_str_path_fails`. -/
theorem create_str_path_fails_witness :
    createInfographic true (.multi [.geom "g1"]) "rid" (.pstr "report.pdf") "pdf"
        ≠ .ok ⟨["g1"], "rid", "pdf", ".", "report.pdf"⟩ ∧
    createInfographic true (.multi [.geom "g1"]) "rid" (.pstr "report.pdf") "pdf"
        = .error (.attributeError "str" "parent") :=
  ⟨(create_str_path_fails (.multi [.geom "g1"]) "rid" "report.pdf" "pdf").1
      ⟨["g1"], "rid", "pdf", ".", "report.pdf"⟩,
   (create_str_path_fails (.multi [.geom "g1"]) "rid" "report.pdf" "pdf").2
      (by decide) (by decide)⟩

end Infographics
